import Mathlib

/-!
Shallow embedding of `plottr/plot/mpl.py`: the automatic matplotlib plotting
widget.  Pure control flow and arithmetic of the module are translated into
executable Lean definitions; calls into matplotlib, Qt, and the numeric
helper module `plottr.utils.num` (which is not part of this module) are kept
abstract, either as parameters or as modelled stubs, as noted at each
definition.
-/

namespace PlottrMpl

/-- Python exceptions that the embedded code can raise. -/
inductive PyErr where
  | valueError (msg : String)
  | indexError
  | keyError
deriving DecidableEq, Repr

/-! ## The dataset model

The upstream dataset container (`DataDict` / `MeshgridDataDict` from
`plottr.data.datadict`) is external to this module; `mpl.py` only queries
`data.axes()`, `data.dependents()`, `data.shapes()` and the dynamic class of
the object (`isinstance(data, MeshgridDataDict)`).  We model exactly that
interface. -/
structure DataSet where
  /-- `isinstance(data, MeshgridDataDict)` -/
  isMeshgrid : Bool
  /-- `data.axes()` -/
  axes : List String
  /-- `data.dependents()` -/
  dependents : List String
  /-- `data.shapes()[name]`: the array shape recorded for each data field. -/
  shapes : String → List Nat

/-- Modelled from the spec: `meshgrid_to_datadict` (from
`plottr.data.datadict`, not under `src/`) converts a gridded
(`MeshgridDataDict`) dataset into a plain scattered `DataDict`; the only
aspect `mpl.py` depends on is that the result is no longer a
`MeshgridDataDict`. -/
def meshgrid_to_datadict (d : DataSet) : DataSet :=
  { d with isMeshgrid := false }

/-! ## MPLPlot.clearFig (mpl.py lines 124-147)

`clearFig` clears the figure, raises `ValueError` when `naxes` exceeds
`nrows * ncols`, and otherwise creates the subplot axes
`fig.add_subplot(nrows, ncols, i)` for `i = 1 .. naxes`, storing and
returning them.  We represent each created axis by its subplot index `i`. -/
def clearFig (nrows ncols : Nat) (naxes : Nat := 1) : Except PyErr (List Nat) :=
  if naxes > nrows * ncols then
    Except.error (PyErr.valueError
      "Number of axes larger than rows x columns.")
  else
    Except.ok ((List.range naxes).map (fun i => i + 1))

/-! ## Subplot grid sizing (mpl.py lines 247-248)

`nrows = ndata ** .5 // 1` is the floor of the square root (float arithmetic
modelled exactly over the naturals) and `ncols = np.ceil(ndata / nrows)` is
the ceiling of the quotient. -/

/-- `nrows = ndata ** .5 // 1` -/
def gridRows (ndata : Nat) : Nat := Nat.sqrt ndata

/-- `ncols = np.ceil(ndata / nrows)` with `nrows = gridRows ndata`. -/
def gridCols (ndata : Nat) : Nat :=
  (ndata + gridRows ndata - 1) / gridRows ndata

/-! ## AutoPlot.setData (mpl.py lines 224-260)

The observable outcome of one `setData` call: either nothing is drawn, the
figure is cleared empty, or a 1d / 2d plot of the named dependents is
produced.  For a 1d plot we record the matplotlib format string
(`'o-'` for meshgrid data, `'o'` otherwise, line 180-182); for 2d plots we
record whether `_plot2d` dispatches to `ppcolormesh_from_meshgrid`
(meshgrid data) or to `ax.scatter` (line 207-210). -/
inductive PlotAction where
  | noop
  | clearedEmpty
  | plot1d (fmt : String) (axes deps : List String)
  | plot2d (useMesh : Bool) (axes deps : List String)
deriving DecidableEq, Repr

/-- `AutoPlot.setData(data)`, mpl.py lines 224-260.
`Option DataSet` models the `data is None` check; exceptions propagate as
`Except.error`.  Note the evaluation order of the original: `dataNames[0]`
(possible `IndexError`), the `0 in shape` early return, the
`meshgrid_to_datadict` conversion (where `min(shape)` on an empty shape
raises `ValueError`), then the dispatch on the number of axes. -/
def setData (d? : Option DataSet) : Except PyErr PlotAction :=
  match d? with
  | none => Except.ok PlotAction.noop
  | some data0 =>
    let axesNames := data0.axes
    let dataNames := data0.dependents
    match dataNames.head? with
    | none => Except.error PyErr.indexError
    | some d0 =>
      let shape := data0.shapes d0
      if shape.contains 0 then Except.ok PlotAction.noop
      else
        let step : Except PyErr DataSet :=
          if axesNames.length = 2 ∧ data0.isMeshgrid = true then
            match shape.min? with
            | none => Except.error (PyErr.valueError "min arg is an empty sequence")
            | some m =>
              Except.ok (if m < 2 then meshgrid_to_datadict data0 else data0)
          else Except.ok data0
        match step with
        | Except.error e => Except.error e
        | Except.ok data =>
          let naxes := axesNames.length
          let ndata := dataNames.length
          if naxes = 0 ∨ ndata = 0 then
            match clearFig 1 1 0 with
            | Except.error e => Except.error e
            | Except.ok _ => Except.ok PlotAction.clearedEmpty
          else if naxes = 1 then
            match clearFig 1 1 1 with
            | Except.error e => Except.error e
            | Except.ok _ =>
              Except.ok (PlotAction.plot1d
                (if data.isMeshgrid then "o-" else "o") axesNames dataNames)
          else if naxes = 2 then
            match clearFig (gridRows ndata) (gridCols ndata) ndata with
            | Except.error e => Except.error e
            | Except.ok _ =>
              Except.ok (PlotAction.plot2d data.isMeshgrid axesNames dataNames)
          else
            Except.error (PyErr.valueError
              ("Cannot plot more than two axes. (given: " ++
                String.intercalate ", " axesNames ++ ")"))

example : setData (some ⟨true, ["x"], ["z"], fun _ => [5]⟩) =
    Except.ok (PlotAction.plot1d "o-" ["x"] ["z"]) := by rfl

example : setData (some ⟨true, ["x", "y"], ["z"], fun _ => [3, 4]⟩) =
    Except.ok (PlotAction.plot2d true ["x", "y"] ["z"]) := by rfl

example : setData (some ⟨true, ["x", "y"], ["z"], fun _ => [1, 3]⟩) =
    Except.ok (PlotAction.plot2d false ["x", "y"] ["z"]) := by rfl

/-! ## ppcolormesh_from_meshgrid (mpl.py lines 50-91)

Arrays are modelled as a shape together with a flat list of cells; a cell is
a finite number, a NaN, or a masked entry (`astype(float)` does not change
the control flow and is dropped).  The numeric helpers imported from
`plottr.utils.num` are not part of this module: `interp_meshgrid_2d`,
`crop2d` and `centers2edges_2d` stay abstract parameters (`centers2edges_2d`
returns `Option` because the call sits in a bare `try/except`), while
`num.is_invalid` is modelled from the spec below. -/
inductive Cell where
  | num (q : ℚ)
  | nan
  | masked
deriving DecidableEq, Repr

/-- A numpy array: its shape and its flattened entries. -/
structure Grid where
  shape : List Nat
  cells : List Cell
deriving DecidableEq, Repr

/-- `np.isnan` on one (float-cast, possibly filled) entry. -/
def Cell.isnan : Cell → Bool
  | Cell.num _ => false
  | _ => true

/-- Modelled from the spec: `num.is_invalid` (from `plottr.utils.num`, not
under `src/`) marks the entries that are not valid numbers — the
invalid/masked regions the spec says get cropped; on float arrays this is
NaN-ness. -/
def Cell.is_invalid : Cell → Bool
  | Cell.num _ => false
  | _ => true

/-- `if np.ma.is_masked(g): g = g.filled(np.nan)` (mpl.py lines 57-62):
when the array has masked entries they are replaced by NaN. -/
def fillMasked (g : Grid) : Grid :=
  if g.cells.any (fun c => c = Cell.masked) then
    { g with cells := g.cells.map (fun c => if c = Cell.masked then Cell.nan else c) }
  else g

/-- `np.any(np.isnan(g))` -/
def anyNan (g : Grid) : Bool := g.cells.any Cell.isnan

/-- `np.any(num.is_invalid(g))` -/
def anyInvalid (g : Grid) : Bool := g.cells.any Cell.is_invalid

/-- `np.all(num.is_invalid(g))` (`True` on an empty array, as in numpy). -/
def allInvalid (g : Grid) : Bool := g.cells.all Cell.is_invalid

/-- `g.size` of a numpy array: the product of the shape. -/
def gridSize (g : Grid) : Nat := g.shape.prod

/-- What `ppcolormesh_from_meshgrid` ends up drawing on the axes: nothing
(`return`/`return None` paths), a scatter fallback `ax.scatter(x, y, c=z)`,
or the pseudocolor mesh `ax.pcolormesh(xe, ye, z)` on the edge grids. -/
inductive MeshResult where
  | noPlot
  | scatterIm (x y z : Grid)
  | meshIm (xe ye z : Grid)
deriving DecidableEq, Repr

/-- The `for g in x, y, z:` loop, mpl.py lines 73-80: the first array that is
empty or not 2-dimensional aborts the plot; the first one with a dimension
of size `< 2` triggers the scatter fallback on the current `x, y, z`.
`none` means the loop fell through to the mesh-drawing code. -/
def loopCheck (x y z : Grid) : List Grid → Option MeshResult
  | [] => none
  | g :: gs =>
    if gridSize g = 0 then some MeshResult.noPlot
    else if g.shape.length < 2 then some MeshResult.noPlot
    else if g.shape.min?.getD 0 < 2 then some (MeshResult.scatterIm x y z)
    else loopCheck x y z gs

/-- mpl.py lines 73-91: the shape checks, then
`x = centers2edges_2d(x); y = centers2edges_2d(y)` inside `try/except`
(an exception in either call aborts the plot), then `ax.pcolormesh`. -/
def meshFinish (c2e : Grid → Option Grid) (x y z : Grid) : MeshResult :=
  match loopCheck x y z [x, y, z] with
  | some r => r
  | none =>
    match c2e x with
    | none => MeshResult.noPlot
    | some xe =>
      match c2e y with
      | none => MeshResult.noPlot
      | some ye => MeshResult.meshIm xe ye z

/-- mpl.py lines 70-91: `if np.any(num.is_invalid(x)) or
np.any(num.is_invalid(y)): x, y, z = num.crop2d(x, y, z)`, then the rest. -/
def meshCropStage (crop : Grid → Grid → Grid → Grid × Grid × Grid)
    (c2e : Grid → Option Grid) (x y z : Grid) : MeshResult :=
  if anyInvalid x ∨ anyInvalid y then
    meshFinish c2e (crop x y z).1 (crop x y z).2.1 (crop x y z).2.2
  else meshFinish c2e x y z

/-- `ppcolormesh_from_meshgrid(ax, x, y, z)`, mpl.py lines 50-91, parametric
in the `plottr.utils.num` helpers `interp_meshgrid_2d` (`interp`), `crop2d`
(`crop`) and `centers2edges_2d` (`c2e`). -/
def ppcolormesh_from_meshgrid (interp : Grid → Grid → Grid × Grid)
    (crop : Grid → Grid → Grid → Grid × Grid × Grid)
    (c2e : Grid → Option Grid) (x y z : Grid) : MeshResult :=
  if allInvalid (fillMasked x) ∨ allInvalid (fillMasked y) then
    MeshResult.noPlot
  else if anyNan (fillMasked x) ∨ anyNan (fillMasked y) then
    meshCropStage crop c2e (interp (fillMasked x) (fillMasked y)).1
      (interp (fillMasked x) (fillMasked y)).2 (fillMasked z)
  else meshCropStage crop c2e (fillMasked x) (fillMasked y) (fillMasked z)

/-! ## PlotNode.process (mpl.py lines 103-106)

`process(**kw)` reads `kw['dataIn']` (a `KeyError` when absent), emits it on
the `newPlotData` signal and returns `dict(dataOut=data)`; the result below
pairs the emitted payload with the returned dict. -/
def PlotNode.process {α : Type} (kw : List (String × α)) :
    Except PyErr (α × List (String × α)) :=
  match kw.lookup "dataIn" with
  | none => Except.error PyErr.keyError
  | some data => Except.ok (data, [("dataOut", data)])

/-! ## MPLPlotWidget.__init__ (mpl.py lines 155-165)

The constructor is modelled as the sequence of GUI operations it performs,
folded into the resulting widget state. -/
inductive WidgetPiece where
  /-- `self.plot = MPLPlot()` — the matplotlib canvas. -/
  | mplCanvas
  /-- `NavBar(self.plot, self)` — `NavigationToolbar2QT`. -/
  | navToolbar
deriving DecidableEq, Repr

inductive QtOp where
  | setDefaults
  | createCanvas
  | createVBoxLayout
  | addWidget (w : WidgetPiece)
deriving DecidableEq, Repr

/-- The operations performed by `MPLPlotWidget.__init__`, in order
(mpl.py lines 157-165). -/
def MPLPlotWidget_init_ops : List QtOp :=
  [QtOp.setDefaults, QtOp.createCanvas, QtOp.createVBoxLayout,
   QtOp.addWidget WidgetPiece.mplCanvas, QtOp.addWidget WidgetPiece.navToolbar]

structure WidgetState where
  hasVBoxLayout : Bool
  children : List WidgetPiece
deriving DecidableEq, Repr

def applyOp (s : WidgetState) : QtOp → WidgetState
  | QtOp.setDefaults => s
  | QtOp.createCanvas => s
  | QtOp.createVBoxLayout => { s with hasVBoxLayout := true }
  | QtOp.addWidget w => { s with children := s.children ++ [w] }

/-- The widget state produced by running `MPLPlotWidget.__init__`. -/
def MPLPlotWidget_init : WidgetState :=
  MPLPlotWidget_init_ops.foldl applyOp ⟨false, []⟩

/-- `class MPLPlot(FCanvas)` (mpl.py line 109): the canvas is a Qt
`FigureCanvas` subclass. -/
def MPLPlot_isQtFigureCanvas : Bool := true

/-- Modelled from the spec: the navigation toolbar (`NavigationToolbar2QT`,
a third-party matplotlib/Qt class, out of scope of this module) is the
component that "provides zoom and pan controls". -/
def NavToolbar_providesZoomPan : Bool := true

/-! ## Helper lemmas -/

theorem gridCols_eq_succ_div (n : Nat) (h : 1 ≤ n) :
    gridCols n = (n - 1) / Nat.sqrt n + 1 := by
  have hr : 0 < Nat.sqrt n := Nat.sqrt_pos.mpr h
  unfold gridCols gridRows
  have hn : n + Nat.sqrt n - 1 = (n - 1) + Nat.sqrt n := by omega
  rw [hn, Nat.add_div_right _ hr]

theorem le_gridRows_mul_gridCols (n : Nat) (h : 1 ≤ n) :
    n ≤ gridRows n * gridCols n := by
  have hr : 0 < Nat.sqrt n := Nat.sqrt_pos.mpr h
  rw [gridCols_eq_succ_div n h]
  unfold gridRows
  have hd := Nat.div_add_mod (n - 1) (Nat.sqrt n)
  have hm : (n - 1) % Nat.sqrt n < Nat.sqrt n := Nat.mod_lt _ hr
  have hmul : Nat.sqrt n * ((n - 1) / Nat.sqrt n + 1) =
      Nat.sqrt n * ((n - 1) / Nat.sqrt n) + Nat.sqrt n := by ring
  omega

theorem gridCols_le_iff (n : Nat) (h : 1 ≤ n) (k : Nat) :
    gridCols n ≤ k ↔ n ≤ gridRows n * k := by
  have hr : 0 < Nat.sqrt n := Nat.sqrt_pos.mpr h
  rw [gridCols_eq_succ_div n h]
  unfold gridRows
  rw [Nat.add_one_le_iff, Nat.div_lt_iff_lt_mul hr, mul_comm k (Nat.sqrt n)]
  omega

theorem clearFig_ok_of_le (nrows ncols naxes : Nat) (h : naxes ≤ nrows * ncols) :
    clearFig nrows ncols naxes =
      Except.ok ((List.range naxes).map (fun i => i + 1)) := by
  simp [clearFig, Nat.not_lt.mpr h]

/-! ## The claims -/

/-- Claim C5 (numerical): in the two-axes branch of `AutoPlot.setData`, for
every number of dependents `n ≥ 1`, `nrows` is `⌊√n⌋`, `ncols` is the least
`k` with `n ≤ nrows * k` (i.e. `⌈n / nrows⌉`), `nrows * ncols ≥ n`, and
`clearFig` succeeds with exactly `n` subplot axes, one per dependent. -/
theorem setData_grid_sizing (n : Nat) (h : 1 ≤ n) :
    gridRows n = Nat.sqrt n ∧
    (∀ k, gridCols n ≤ k ↔ n ≤ gridRows n * k) ∧
    n ≤ gridRows n * gridCols n ∧
    ∃ axs, clearFig (gridRows n) (gridCols n) n = Except.ok axs ∧
      axs.length = n := by
  refine ⟨rfl, gridCols_le_iff n h, le_gridRows_mul_gridCols n h, ?_⟩
  refine ⟨(List.range n).map (fun i => i + 1),
    clearFig_ok_of_le _ _ _ (le_gridRows_mul_gridCols n h), ?_⟩
  simp

/-- Witness for C5 at `n = 5`: `nrows = 2`, `ncols = 3`, five axes fit. -/
theorem setData_grid_sizing_witness :
    5 ≤ gridRows 5 * gridCols 5 ∧
    ∃ axs, clearFig (gridRows 5) (gridCols 5) 5 = Except.ok axs ∧
      axs.length = 5 :=
  ⟨(setData_grid_sizing 5 (by decide)).2.2.1,
   (setData_grid_sizing 5 (by decide)).2.2.2⟩

/-- Claim C9 (error handling): `MPLPlot.clearFig` raises `ValueError` if and
only if `naxes > nrows * ncols`; otherwise it returns a list of exactly
`naxes` subplot axes. -/
theorem clearFig_spec (nrows ncols naxes : Nat) :
    ((∃ e, clearFig nrows ncols naxes = Except.error e) ↔
      nrows * ncols < naxes) ∧
    (∀ axs, clearFig nrows ncols naxes = Except.ok axs →
      axs.length = naxes) := by
  unfold clearFig
  by_cases h : nrows * ncols < naxes
  · simp [h]
  · rw [if_neg (by omega)]
    constructor
    · constructor
      · rintro ⟨e, he⟩
        simp at he
      · intro hlt
        exact absurd hlt h
    · intro axs haxs
      cases haxs
      simp

/-- Witness for C9: `clearFig 2 2 5` errors, `clearFig 2 2 3` gives 3 axes. -/
theorem clearFig_spec_witness :
    (∃ e, clearFig 2 2 5 = Except.error e) ∧
    ([1, 2, 3] : List Nat).length = 3 :=
  ⟨(clearFig_spec 2 2 5).1.mpr (by decide),
   (clearFig_spec 2 2 3).2 [1, 2, 3] (by rfl)⟩

/-- Claim C7 (safety): a non-`None` dataset with no dependents makes
`AutoPlot.setData` raise `IndexError` at `data.shapes()[dataNames[0]]`, so
the `ndata == 0` figure-clearing branch is never reached with empty
dependents. -/
theorem setData_empty_dependents (d : DataSet) (h : d.dependents = []) :
    setData (some d) = Except.error PyErr.indexError ∧
    setData (some d) ≠ Except.ok PlotAction.clearedEmpty := by
  refine ⟨by simp [setData, h], ?_⟩
  simp [setData, h]

/-- Witness for C7 on a dataset with one axis and no dependents. -/
theorem setData_empty_dependents_witness :
    setData (some ⟨false, ["x"], [], fun _ => []⟩) =
      Except.error PyErr.indexError :=
  (setData_empty_dependents ⟨false, ["x"], [], fun _ => []⟩ rfl).1

/-- Claim C8 (functional correctness): `PlotNode.process` returns a dict
whose only entry `'dataOut'` is exactly the `'dataIn'` keyword argument,
unchanged (and emits that same value on the `newPlotData` signal). -/
theorem plotNode_process_passthrough {α : Type} (kw : List (String × α))
    (v : α) (h : kw.lookup "dataIn" = some v) :
    PlotNode.process kw = Except.ok (v, [("dataOut", v)]) := by
  simp [PlotNode.process, h]

/-- Witness for C8 with `kw = {dataIn: 7}`. -/
theorem plotNode_process_passthrough_witness :
    PlotNode.process [("dataIn", (7 : Nat))] =
      Except.ok (7, [("dataOut", 7)]) :=
  plotNode_process_passthrough [("dataIn", (7 : Nat))] 7 rfl

/-- Claim C6 (functional correctness): `MPLPlotWidget.__init__` installs a
vertical box layout holding the `MPLPlot` canvas (a Qt `FigureCanvas`)
followed by the `NavigationToolbar2QT` navigation toolbar, the component
providing zoom/pan controls. -/
theorem mplPlotWidget_layout :
    MPLPlotWidget_init.hasVBoxLayout = true ∧
    MPLPlotWidget_init.children =
      [WidgetPiece.mplCanvas, WidgetPiece.navToolbar] ∧
    MPLPlot_isQtFigureCanvas = true ∧
    NavToolbar_providesZoomPan = true := by
  refine ⟨rfl, rfl, rfl, rfl⟩

/-- Counterexample to C2 as stated: a dataset with three independent axes
whose first dependent's shape contains a zero is quietly returned from
`setData` without any exception — the `0 in shape` early return precedes
the axis-count check, so not every dataset with more than two axes raises
`ValueError`. -/
theorem setData_many_axes_counterexample :
    2 < (DataSet.mk false ["a", "b", "c"] ["z"] (fun _ => [0])).axes.length ∧
    setData (some (DataSet.mk false ["a", "b", "c"] ["z"] (fun _ => [0]))) =
      Except.ok PlotAction.noop :=
  ⟨by decide, by rfl⟩

/-- Claim C2 (corrected): for every non-`None` dataset with more than two
independent axes, at least one dependent, and no zero in the first
dependent's shape, `AutoPlot.setData` raises `ValueError` and produces no
plot. -/
theorem setData_rejects_many_axes (d : DataSet) (h3 : 2 < d.axes.length)
    (hdep : d.dependents ≠ [])
    (hsh : (d.shapes d.dependents.headI).contains 0 = false) :
    setData (some d) = Except.error (PyErr.valueError
      ("Cannot plot more than two axes. (given: " ++
        String.intercalate ", " d.axes ++ ")")) := by
  obtain ⟨d0, rest, hd⟩ := List.exists_cons_of_ne_nil hdep
  have hh : d.dependents.headI = d0 := by rw [hd]; rfl
  rw [hh] at hsh
  have hmem : 0 ∉ d.shapes d0 := by simpa using hsh
  have h0 : d.axes.length ≠ 0 := by omega
  have h1 : d.axes.length ≠ 1 := by omega
  have h2 : d.axes.length ≠ 2 := by omega
  simp [setData, hd, hsh, hmem, h0, h1, h2]

/-- Witness for C2 on a three-axis dataset with one dependent of shape
`(2,)`. -/
theorem setData_rejects_many_axes_witness :
    setData (some ⟨false, ["a", "b", "c"], ["z"], fun _ => [2]⟩) =
      Except.error (PyErr.valueError
        ("Cannot plot more than two axes. (given: " ++
          String.intercalate ", " ["a", "b", "c"] ++ ")")) :=
  setData_rejects_many_axes ⟨false, ["a", "b", "c"], ["z"], fun _ => [2]⟩
    (by decide) (by simp) (by rfl)

/-- Counterexample to C1 as stated: a `MeshgridDataDict` with two axes and
first-dependent shape `(1, 3)` (no zero in it) is converted by
`meshgrid_to_datadict` before plotting, so `_plot2d` dispatches to
`ax.scatter`, not to the pseudocolor mesh the claim promises for meshgrid
data. -/
theorem setData_dispatch_counterexample :
    (DataSet.mk true ["x", "y"] ["z"] (fun _ => [1, 3])).isMeshgrid = true ∧
    setData (some (DataSet.mk true ["x", "y"] ["z"] (fun _ => [1, 3]))) =
      Except.ok (PlotAction.plot2d false ["x", "y"] ["z"]) :=
  ⟨rfl, by rfl⟩

/-- Claim C1 (corrected): for every non-`None` dataset with at least one
dependent whose first dependent's shape is nonempty and contains no zero:
with exactly one axis, `setData` draws every dependent against that axis,
line-connected (`'o-'`) exactly when the data is a `MeshgridDataDict`
(markers `'o'` otherwise); with exactly two axes it draws one 2D plot per
dependent, dispatching to the pseudocolor mesh exactly when the data is a
`MeshgridDataDict` whose shape minimum is at least 2 (a meshgrid with a
size-1 dimension is first converted by `meshgrid_to_datadict` and hence
scattered), and to `ax.scatter` otherwise. -/
theorem setData_dispatch (d : DataSet)
    (hdep : d.dependents ≠ [])
    (hsh0 : (d.shapes d.dependents.headI).contains 0 = false)
    (hshne : d.shapes d.dependents.headI ≠ []) :
    (d.axes.length = 1 →
      setData (some d) = Except.ok (PlotAction.plot1d
        (if d.isMeshgrid then "o-" else "o") d.axes d.dependents)) ∧
    (d.axes.length = 2 →
      setData (some d) = Except.ok (PlotAction.plot2d
        (d.isMeshgrid && decide
          (2 ≤ (d.shapes d.dependents.headI).min?.getD 0))
        d.axes d.dependents)) := by
  obtain ⟨d0, rest, hd⟩ := List.exists_cons_of_ne_nil hdep
  have hh : d.dependents.headI = d0 := by rw [hd]; rfl
  rw [hh] at hsh0 hshne
  have hmem : 0 ∉ d.shapes d0 := by simpa using hsh0
  have hle : rest.length + 1 ≤
      gridRows (rest.length + 1) * gridCols (rest.length + 1) :=
    le_gridRows_mul_gridCols _ (Nat.succ_le_succ (Nat.zero_le _))
  have hcf := clearFig_ok_of_le (gridRows (rest.length + 1))
    (gridCols (rest.length + 1)) (rest.length + 1) hle
  constructor
  · intro h1
    have h2 : d.axes.length ≠ 2 := by omega
    have h0 : d.axes.length ≠ 0 := by omega
    simp [setData, hd, hsh0, hmem, h1, h2, h0, clearFig]
  · intro h2
    obtain ⟨s0, srest, hs⟩ := List.exists_cons_of_ne_nil hshne
    have hmin : (d.shapes d0).min? = some (srest.foldl min s0) := by
      rw [hs]; rfl
    cases hm : d.isMeshgrid with
    | false =>
      simp [setData, hd, hsh0, hmem, h2, hm, hh, hcf]
    | true =>
      by_cases hlt : srest.foldl min s0 < 2
      · have hnle : ¬ 2 ≤ srest.foldl min s0 := by omega
        simp [setData, hd, hsh0, hmem, h2, hm, hh, hmin, hlt, hnle,
          meshgrid_to_datadict, hcf]
      · have hle2 : 2 ≤ srest.foldl min s0 := by omega
        simp [setData, hd, hsh0, hmem, h2, hm, hh, hmin, hlt, hle2, hcf]

/-- Witness for C1: a two-axis meshgrid dataset with shape `(3, 4)`
dispatches both dependents to the pseudocolor mesh. -/
theorem setData_dispatch_witness :
    setData (some ⟨true, ["x", "y"], ["z", "w"], fun _ => [3, 4]⟩) =
      Except.ok (PlotAction.plot2d true ["x", "y"] ["z", "w"]) :=
  (setData_dispatch ⟨true, ["x", "y"], ["z", "w"], fun _ => [3, 4]⟩
    (by simp) (by rfl) (by simp)).2 rfl

/-- Shared refactoring lemma: past the masked-filling and the
not-everything-invalid guard, a NaN in either coordinate array routes the
computation through `interp_meshgrid_2d` and only then to the
crop-and-draw stages. -/
theorem ppcolormesh_interp_eq (interp : Grid → Grid → Grid × Grid)
    (crop : Grid → Grid → Grid → Grid × Grid × Grid)
    (c2e : Grid → Option Grid) (x y z : Grid)
    (hvx : allInvalid (fillMasked x) = false)
    (hvy : allInvalid (fillMasked y) = false)
    (hnan : anyNan (fillMasked x) = true ∨ anyNan (fillMasked y) = true) :
    ppcolormesh_from_meshgrid interp crop c2e x y z =
      meshCropStage crop c2e (interp (fillMasked x) (fillMasked y)).1
        (interp (fillMasked x) (fillMasked y)).2 (fillMasked z) := by
  unfold ppcolormesh_from_meshgrid
  rw [if_neg (by simp [hvx, hvy]), if_pos hnan]

/-- Claim C3 (functional correctness): in `ppcolormesh_from_meshgrid`, when
the x or y coordinate array contains a NaN entry (after masked entries are
filled with NaN) but neither array is entirely invalid, the coordinate
arrays are passed through `interp_meshgrid_2d`, and any mesh is drawn only
afterwards, from the interpolated coordinates. -/
theorem ppcolormesh_interpolates_nans (interp : Grid → Grid → Grid × Grid)
    (crop : Grid → Grid → Grid → Grid × Grid × Grid)
    (c2e : Grid → Option Grid) (x y z : Grid)
    (hvx : allInvalid (fillMasked x) = false)
    (hvy : allInvalid (fillMasked y) = false)
    (hnan : anyNan (fillMasked x) = true ∨ anyNan (fillMasked y) = true) :
    ppcolormesh_from_meshgrid interp crop c2e x y z =
      meshCropStage crop c2e (interp (fillMasked x) (fillMasked y)).1
        (interp (fillMasked x) (fillMasked y)).2 (fillMasked z) :=
  ppcolormesh_interp_eq interp crop c2e x y z hvx hvy hnan

/-- Witness for C3: a 2x2 grid with one NaN in x is routed through the
(identity) interpolator into the crop stage. -/
theorem ppcolormesh_interpolates_nans_witness :
    ppcolormesh_from_meshgrid (fun a b => (a, b)) (fun a b c => (a, b, c))
      (fun g => some g)
      ⟨[2, 2], [Cell.num 0, Cell.nan, Cell.num 1, Cell.num 2]⟩
      ⟨[2, 2], [Cell.num 0, Cell.num 1, Cell.num 2, Cell.num 3]⟩
      ⟨[2, 2], [Cell.num 5, Cell.num 6, Cell.num 7, Cell.num 8]⟩ =
      meshCropStage (fun a b c => (a, b, c)) (fun g => some g)
        ⟨[2, 2], [Cell.num 0, Cell.nan, Cell.num 1, Cell.num 2]⟩
        ⟨[2, 2], [Cell.num 0, Cell.num 1, Cell.num 2, Cell.num 3]⟩
        ⟨[2, 2], [Cell.num 5, Cell.num 6, Cell.num 7, Cell.num 8]⟩ :=
  ppcolormesh_interpolates_nans _ _ _ _ _ _ (by rfl) (by rfl)
    (Or.inl (by rfl))

/-- Claim C4 (functional correctness): in `ppcolormesh_from_meshgrid`, when
invalid coordinate entries remain in x or y after interpolation,
`num.crop2d` is applied to x, y and z together, and the mesh or fallback
scatter is then drawn only from the cropped triple. -/
theorem ppcolormesh_crops_invalid (interp : Grid → Grid → Grid × Grid)
    (crop : Grid → Grid → Grid → Grid × Grid × Grid)
    (c2e : Grid → Option Grid) (x y z : Grid)
    (hvx : allInvalid (fillMasked x) = false)
    (hvy : allInvalid (fillMasked y) = false)
    (hnan : anyNan (fillMasked x) = true ∨ anyNan (fillMasked y) = true)
    (hinv : anyInvalid (interp (fillMasked x) (fillMasked y)).1 = true ∨
      anyInvalid (interp (fillMasked x) (fillMasked y)).2 = true) :
    ppcolormesh_from_meshgrid interp crop c2e x y z =
      meshFinish c2e
        (crop (interp (fillMasked x) (fillMasked y)).1
          (interp (fillMasked x) (fillMasked y)).2 (fillMasked z)).1
        (crop (interp (fillMasked x) (fillMasked y)).1
          (interp (fillMasked x) (fillMasked y)).2 (fillMasked z)).2.1
        (crop (interp (fillMasked x) (fillMasked y)).1
          (interp (fillMasked x) (fillMasked y)).2 (fillMasked z)).2.2 := by
  rw [ppcolormesh_interp_eq interp crop c2e x y z hvx hvy hnan]
  unfold meshCropStage
  rw [if_pos hinv]

/-- Witness for C4: with an identity interpolator the NaN survives, so the
(identity) crop is applied and the draw proceeds from its output. -/
theorem ppcolormesh_crops_invalid_witness :
    ppcolormesh_from_meshgrid (fun a b => (a, b)) (fun a b c => (a, b, c))
      (fun g => some g)
      ⟨[2, 2], [Cell.num 0, Cell.nan, Cell.num 1, Cell.num 2]⟩
      ⟨[2, 2], [Cell.num 0, Cell.num 1, Cell.num 2, Cell.num 3]⟩
      ⟨[2, 2], [Cell.num 5, Cell.num 6, Cell.num 7, Cell.num 8]⟩ =
      meshFinish (fun g => some g)
        ⟨[2, 2], [Cell.num 0, Cell.nan, Cell.num 1, Cell.num 2]⟩
        ⟨[2, 2], [Cell.num 0, Cell.num 1, Cell.num 2, Cell.num 3]⟩
        ⟨[2, 2], [Cell.num 5, Cell.num 6, Cell.num 7, Cell.num 8]⟩ :=
  ppcolormesh_crops_invalid _ _ _ _ _ _ (by rfl) (by rfl)
    (Or.inl (by rfl)) (Or.inl (by rfl))

end PlottrMpl
